import Mathlib

/-!
Shallow embedding of the Kernel Process Supervisor from
src/gui/src-tauri/src/main.rs.

The only operation is the Tauri command `start_kernel`, which builds the
command `python3 -m loop serve` with `std::process::Command` and calls
`spawn`, returning a status string.  The operating system is modelled as an
explicit state (`OS`): an oracle deciding the outcome of each process
creation syscall, a pid counter, the list of created processes, and a trace
of syscall events.  The `Command` builder records everything Rust's builder
records that `start_kernel` could have touched: program, arguments, working
directory override, environment overrides and the three standard stream
configurations (Rust's `spawn` defaults all three to inherit).
-/

/-- Configuration of one standard stream of a child process.  Rust's
`Command::spawn` leaves every stream at `inherit` unless overridden. -/
inductive Stdio where
  | inherit
  | piped
  | null
  deriving DecidableEq, Repr

/-- An operating-system error as `std::io::Error` presents it: the carried
string is the OS error description rendered by its `Display` impl. -/
structure IOError where
  msg : String
  deriving DecidableEq, Repr

/-- The `Display` rendering of an `std::io::Error`. -/
def IOError.toString (e : IOError) : String := e.msg

/-- The `std::process::Command` builder state. -/
structure Command where
  program : String
  args : List String
  cwdOverride : Option String
  envOverrides : List (String × Option String)
  stdinCfg : Stdio
  stdoutCfg : Stdio
  stderrCfg : Stdio
  deriving DecidableEq, Repr

/-- `Command::new(p)`: program `p`, no arguments, inherit working
directory, environment and all standard streams. -/
def Command.new (p : String) : Command :=
  { program := p
    args := []
    cwdOverride := none
    envOverrides := []
    stdinCfg := Stdio.inherit
    stdoutCfg := Stdio.inherit
    stderrCfg := Stdio.inherit }

/-- `Command::arg`: append one argument. -/
def Command.arg (c : Command) (a : String) : Command :=
  { c with args := c.args ++ [a] }

/-- The argument vector handed to the operating system on spawn:
the program name followed by the arguments, as in `execvp`. -/
def Command.argv (c : Command) : List String := c.program :: c.args

/-- A handle to a created child process (`std::process::Child`). -/
structure Child where
  pid : Nat
  deriving DecidableEq, Repr

/-- Outcome of the process-creation syscall, as `spawn` returns it:
`io::Result<Child>`. -/
inductive SpawnResult where
  | ok : Child → SpawnResult
  | err : IOError → SpawnResult
  deriving DecidableEq, Repr

/-- Syscall events the supervisor could direct at the operating system:
a process-creation request, a wait/reap of a child, or a read of a
child's output. -/
inductive Event where
  | spawnCall : Command → Event
  | waitChild : Nat → Event
  | readOutput : Nat → Event
  deriving DecidableEq, Repr

/-- Whether an event is a wait/reap of a child. -/
def Event.isWait : Event → Bool
  | .waitChild _ => true
  | _ => false

/-- Whether an event is a read of a child's output. -/
def Event.isRead : Event → Bool
  | .readOutput _ => true
  | _ => false

/-- The operating-system state: `oracle k` is the outcome of the `k`-th
process-creation syscall (`none` means the interpreter is resolvable and
creation succeeds), `calls` counts creation syscalls so far, `nextPid` is
the next fresh pid, `procs` lists the created processes with the command
each was created from, and `trace` records every syscall event. -/
structure OS where
  oracle : Nat → Option IOError
  calls : Nat
  nextPid : Nat
  procs : List (Nat × Command)
  trace : List Event

/-- `Command::spawn`: request process creation from the operating system.
On success a fresh child is created with this command; on failure the OS
error is returned and no process is created.  Either way the creation
syscall itself is recorded in the trace. -/
def Command.spawn (c : Command) (os : OS) : SpawnResult × OS :=
  match os.oracle os.calls with
  | none =>
      (SpawnResult.ok ⟨os.nextPid⟩,
        { os with
          calls := os.calls + 1
          nextPid := os.nextPid + 1
          procs := os.procs ++ [(os.nextPid, c)]
          trace := os.trace ++ [Event.spawnCall c] })
  | some e =>
      (SpawnResult.err e,
        { os with
          calls := os.calls + 1
          trace := os.trace ++ [Event.spawnCall c] })

/-- The fixed command built by `start_kernel`:
`Command::new("python3").arg("-m").arg("loop").arg("serve")`. -/
def kernelCommand : Command :=
  ((((Command.new "python3").arg "-m").arg "loop").arg "serve")

/-- The success reply of `start_kernel`. -/
def spawnedMsg : String := "Kernel Process Spawned (API Mode)"

/-- The fixed head of the failure reply of `start_kernel`; the code
renders `format!("Failed to spawn kernel: {}", e)`. -/
def failHead : String := "Failed to spawn kernel: "

/-- The `match` inside `start_kernel` on the result of `spawn`:
`Ok(_) => "Kernel Process Spawned (API Mode)"`,
`Err(e) => format!("Failed to spawn kernel: {}", e)`. -/
def handleSpawn : SpawnResult → String
  | .ok _ => spawnedMsg
  | .err e => failHead ++ IOError.toString e

/-- The Tauri command `start_kernel`: spawn the fixed kernel command and
return the status string.  The OS state threads through explicitly. -/
def start_kernel (os : OS) : String × OS :=
  let p := kernelCommand.spawn os
  (handleSpawn p.1, p.2)

/-- `n` sequential invocations of `start_kernel`, collecting the replies
in order. -/
def start_kernel_iter : Nat → OS → List String × OS
  | 0, os => ([], os)
  | n + 1, os =>
      let p := start_kernel os
      let q := start_kernel_iter n p.2
      (p.1 :: q.1, q.2)

/-- The Launch Result of the spec: a tagged outcome with two variants. -/
inductive LaunchResult where
  | Spawned
  | SpawnFailed (msg : String)
  deriving DecidableEq, Repr

/-- How a Launch Result is rendered as the reply string. -/
def renderResult : LaunchResult → String
  | .Spawned => spawnedMsg
  | .SpawnFailed m => failHead ++ m

/-- A concrete OS state whose every creation syscall succeeds. -/
def osOk : OS :=
  { oracle := fun _ => none
    calls := 0
    nextPid := 0
    procs := []
    trace := [] }

/-- A second concrete OS state whose every creation syscall succeeds,
differing from `osOk` in pid counter, call counter and process list. -/
def osOk2 : OS :=
  { oracle := fun _ => none
    calls := 7
    nextPid := 5
    procs := [(3, kernelCommand)]
    trace := [Event.spawnCall kernelCommand] }

/-- A concrete OS state whose every creation syscall fails with a
typical error description. -/
def osErr : OS :=
  { oracle := fun _ => some ⟨"No such file or directory (os error 2)"⟩
    calls := 0
    nextPid := 0
    procs := []
    trace := [] }

/-- Unfolding of `start_kernel` when the creation syscall succeeds. -/
lemma start_kernel_eq_of_ok (os : OS) (h : os.oracle os.calls = none) :
    start_kernel os =
      (spawnedMsg,
        { os with
          calls := os.calls + 1
          nextPid := os.nextPid + 1
          procs := os.procs ++ [(os.nextPid, kernelCommand)]
          trace := os.trace ++ [Event.spawnCall kernelCommand] }) := by
  simp [start_kernel, Command.spawn, h, handleSpawn]

/-- Unfolding of `start_kernel` when the creation syscall fails. -/
lemma start_kernel_eq_of_err (os : OS) (e : IOError)
    (h : os.oracle os.calls = some e) :
    start_kernel os =
      (failHead ++ IOError.toString e,
        { os with
          calls := os.calls + 1
          trace := os.trace ++ [Event.spawnCall kernelCommand] }) := by
  simp [start_kernel, Command.spawn, h, handleSpawn]

/-- C1: whenever the OS process-creation call succeeds, `start_kernel`
returns exactly the string "Kernel Process Spawned (API Mode)". -/
theorem start_kernel_success_message (os : OS)
    (h : os.oracle os.calls = none) :
    (start_kernel os).1 = "Kernel Process Spawned (API Mode)" := by
  rw [start_kernel_eq_of_ok os h]
  rfl

/-- Witness for C1 at the concrete state `osOk`. -/
theorem start_kernel_success_message_witness :
    osOk.oracle osOk.calls = none ∧
    (start_kernel osOk).1 = "Kernel Process Spawned (API Mode)" :=
  ⟨rfl, start_kernel_success_message osOk rfl⟩

/-- C2: whenever the OS process-creation call fails with error `e`,
`start_kernel` returns (rather than throwing or panicking) the string
"Failed to spawn kernel: " followed by the OS error description of `e`. -/
theorem start_kernel_failure_message (os : OS) (e : IOError)
    (h : os.oracle os.calls = some e) :
    (start_kernel os).1 = "Failed to spawn kernel: " ++ IOError.toString e := by
  rw [start_kernel_eq_of_err os e h]
  rfl

/-- Witness for C2 at the concrete state `osErr`. -/
theorem start_kernel_failure_message_witness :
    osErr.oracle osErr.calls =
      some ⟨"No such file or directory (os error 2)"⟩ ∧
    (start_kernel osErr).1 =
      "Failed to spawn kernel: " ++
        IOError.toString ⟨"No such file or directory (os error 2)"⟩ :=
  ⟨rfl, start_kernel_failure_message osErr
    ⟨"No such file or directory (os error 2)"⟩ rfl⟩

/-- C3 counterexample: in a successful invocation the argument vector
handed to the operating system is the four-element list
["python3", "-m", "loop", "serve"]; it is not a three-element list
(interpreter, "loop", "serve"), because the `-m` flag is also present. -/
theorem start_kernel_argv_counterexample :
    (start_kernel osOk).2.procs = [(0, kernelCommand)] ∧
    kernelCommand.argv = ["python3", "-m", "loop", "serve"] ∧
    kernelCommand.argv ≠ ["python3", "loop", "serve"] ∧
    kernelCommand.argv.length ≠ 3 := by
  refine ⟨rfl, rfl, ?_, ?_⟩ <;> decide

/-- C3 amended: for every successful invocation of `start_kernel`, the
argument vector handed to the operating system for the new process is the
fixed four-element sequence ["python3", "-m", "loop", "serve"]
(interpreter, module flag, module name, subcommand), with no other
elements. -/
theorem start_kernel_argv (os : OS) (h : os.oracle os.calls = none) :
    (start_kernel os).2.procs = os.procs ++ [(os.nextPid, kernelCommand)] ∧
    kernelCommand.argv = ["python3", "-m", "loop", "serve"] := by
  rw [start_kernel_eq_of_ok os h]
  exact ⟨rfl, rfl⟩

/-- Witness for the amended C3 at the concrete state `osOk`. -/
theorem start_kernel_argv_witness :
    osOk.oracle osOk.calls = none ∧
    ((start_kernel osOk).2.procs = osOk.procs ++ [(osOk.nextPid, kernelCommand)] ∧
     kernelCommand.argv = ["python3", "-m", "loop", "serve"]) :=
  ⟨rfl, start_kernel_argv osOk rfl⟩

/-- C4: when process creation fails, no new process is created and the
observable OS state is otherwise unchanged: the process list, the pid
counter and the spawn oracle are exactly as before the call. -/
theorem start_kernel_failure_no_process (os : OS) (e : IOError)
    (h : os.oracle os.calls = some e) :
    (start_kernel os).2.procs = os.procs ∧
    (start_kernel os).2.nextPid = os.nextPid ∧
    (start_kernel os).2.oracle = os.oracle := by
  rw [start_kernel_eq_of_err os e h]
  exact ⟨rfl, rfl, rfl⟩

/-- Witness for C4 at the concrete state `osErr`. -/
theorem start_kernel_failure_no_process_witness :
    osErr.oracle osErr.calls =
      some ⟨"No such file or directory (os error 2)"⟩ ∧
    ((start_kernel osErr).2.procs = osErr.procs ∧
     (start_kernel osErr).2.nextPid = osErr.nextPid ∧
     (start_kernel osErr).2.oracle = osErr.oracle) :=
  ⟨rfl, start_kernel_failure_no_process osErr
    ⟨"No such file or directory (os error 2)"⟩ rfl⟩

/-- Repeated invocations while every creation syscall succeeds: the
replies are `n` copies of the success message and the process list grows
by `n` processes with consecutive fresh pids. -/
lemma start_kernel_iter_ok (n : Nat) :
    ∀ os : OS, (∀ k, os.oracle k = none) →
      (start_kernel_iter n os).1 = List.replicate n spawnedMsg ∧
      (start_kernel_iter n os).2.procs =
        os.procs ++ (List.range n).map (fun k => (os.nextPid + k, kernelCommand)) := by
  induction n with
  | zero =>
      intro os h
      simp [start_kernel_iter]
  | succ n ih =>
      intro os h
      have h0 : os.oracle os.calls = none := h os.calls
      have hs := start_kernel_eq_of_ok os h0
      have hrec := ih
        { os with
          calls := os.calls + 1
          nextPid := os.nextPid + 1
          procs := os.procs ++ [(os.nextPid, kernelCommand)]
          trace := os.trace ++ [Event.spawnCall kernelCommand] }
        (fun k => h k)
      simp only [start_kernel_iter, hs] at *
      refine ⟨?_, ?_⟩
      · simp [hrec.1, List.replicate_succ]
      · rw [hrec.2]
        simp [List.range_succ_eq_map, List.map_map, Function.comp_def,
          Nat.succ_eq_add_one, Nat.add_comm, Nat.add_assoc, Nat.add_left_comm]

/-- C5: invoking `start_kernel` N times (N at least 1) while every
creation syscall succeeds yields N independent success replies and
creates N new processes with pairwise distinct pids; repetition never
causes an error and no call is deduplicated. -/
theorem start_kernel_repeat (N : Nat) (os : OS) (hN : 1 ≤ N)
    (h : ∀ k, os.oracle k = none) :
    (start_kernel_iter N os).1 =
      List.replicate N "Kernel Process Spawned (API Mode)" ∧
    (start_kernel_iter N os).2.procs =
      os.procs ++ (List.range N).map (fun k => (os.nextPid + k, kernelCommand)) ∧
    ((List.range N).map (fun k => os.nextPid + k)).Nodup ∧
    ((start_kernel_iter N os).2.procs).length = os.procs.length + N := by
  obtain ⟨h1, h2⟩ := start_kernel_iter_ok N os h
  refine ⟨h1, h2, ?_, ?_⟩
  · exact (List.nodup_range N).map (fun a b hab => Nat.add_left_cancel hab)
  · rw [h2]
    simp

/-- Witness for C5: two calls against the concrete state `osOk` give two
success replies and two created processes. -/
theorem start_kernel_repeat_witness :
    (start_kernel_iter 2 osOk).1 =
      List.replicate 2 "Kernel Process Spawned (API Mode)" ∧
    ((start_kernel_iter 2 osOk).2.procs).length = osOk.procs.length + 2 :=
  ⟨(start_kernel_repeat 2 osOk (by decide) (fun _ => rfl)).1,
   (start_kernel_repeat 2 osOk (by decide) (fun _ => rfl)).2.2.2⟩

/-- C6: in every execution, the only syscall event `start_kernel` emits
is the single process-creation request; it performs no wait/reap of the
child and no read of the child's output, in success and failure alike. -/
theorem start_kernel_no_wait (os : OS) :
    (start_kernel os).2.trace = os.trace ++ [Event.spawnCall kernelCommand] ∧
    Event.isWait (Event.spawnCall kernelCommand) = false ∧
    Event.isRead (Event.spawnCall kernelCommand) = false := by
  refine ⟨?_, rfl, rfl⟩
  cases h : os.oracle os.calls with
  | none => rw [start_kernel_eq_of_ok os h]
  | some e => rw [start_kernel_eq_of_err os e h]

/-- The success reply is never equal to a failure reply: the two strings
differ already in their first character. -/
lemma spawnedMsg_ne_fail (m : String) : spawnedMsg ≠ failHead ++ m := by
  intro hEq
  have hd : spawnedMsg.data = failHead.data ++ m.data := by
    have h := congrArg String.data hEq
    simpa using h
  have hh := congrArg List.head? hd
  have h1 : spawnedMsg.data.head? = some 'K' := rfl
  have h2 : (failHead.data ++ m.data).head? = some 'F' := by
    have hc : failHead.data = 'F' :: ("ailed to spawn kernel: ").data := rfl
    rw [hc]
    rfl
  rw [h1, h2] at hh
  simp at hh

/-- Appending to the fixed failure head is injective in the tail. -/
lemma failHead_append_inj (m m' : String)
    (h : failHead ++ m = failHead ++ m') : m = m' := by
  have hd := congrArg String.data h
  simp only [String.data_append] at hd
  exact String.ext (List.append_cancel_left hd)

/-- C7: every invocation of `start_kernel` produces exactly one Launch
Result: there is a unique tagged outcome (Spawned or SpawnFailed) whose
rendering is the single returned string. -/
theorem start_kernel_unique_result (os : OS) :
    ∃! v : LaunchResult, renderResult v = (start_kernel os).1 := by
  cases h : os.oracle os.calls with
  | none =>
      refine ⟨LaunchResult.Spawned, ?_, ?_⟩
      · rw [start_kernel_eq_of_ok os h]
        rfl
      · intro v hv
        cases v with
        | Spawned => rfl
        | SpawnFailed m =>
            exfalso
            rw [start_kernel_eq_of_ok os h] at hv
            exact spawnedMsg_ne_fail m hv.symm
  | some e =>
      refine ⟨LaunchResult.SpawnFailed e.msg, ?_, ?_⟩
      · rw [start_kernel_eq_of_err os e h]
        rfl
      · intro v hv
        cases v with
        | Spawned =>
            exfalso
            rw [start_kernel_eq_of_err os e h] at hv
            exact spawnedMsg_ne_fail e.msg hv
        | SpawnFailed m =>
            rw [start_kernel_eq_of_err os e h] at hv
            rw [failHead_append_inj m e.msg hv]

/-- C8: the process-creation request is the build-time constant
`kernelCommand` in every invocation, independent of any caller input,
and that command inherits the working directory, the environment and all
three standard streams, establishing no pipe or other channel. -/
theorem start_kernel_fixed_request (os : OS) :
    (start_kernel os).2.trace = os.trace ++ [Event.spawnCall kernelCommand] ∧
    kernelCommand.cwdOverride = none ∧
    kernelCommand.envOverrides = [] ∧
    kernelCommand.stdinCfg = Stdio.inherit ∧
    kernelCommand.stdoutCfg = Stdio.inherit ∧
    kernelCommand.stderrCfg = Stdio.inherit := by
  refine ⟨?_, rfl, rfl, rfl, rfl, rfl⟩
  cases h : os.oracle os.calls with
  | none => rw [start_kernel_eq_of_ok os h]
  | some e => rw [start_kernel_eq_of_err os e h]

/-- C9: the `match` on the spawn result is exhaustive: `start_kernel`
replies through `handleSpawn`, and for every possible spawn outcome
`handleSpawn` lands in exactly the Ok branch or the Err branch and
returns a string, with no unhandled path. -/
theorem start_kernel_match_exhaustive (r : SpawnResult) (os : OS) :
    (start_kernel os).1 = handleSpawn (kernelCommand.spawn os).1 ∧
    ((∃ c, r = SpawnResult.ok c ∧ handleSpawn r = spawnedMsg) ∨
     (∃ e, r = SpawnResult.err e ∧
        handleSpawn r = failHead ++ IOError.toString e)) := by
  constructor
  · rfl
  · cases r with
    | ok c => exact Or.inl ⟨c, rfl, rfl⟩
    | err e => exact Or.inr ⟨e, rfl, rfl⟩

/-- C10: the reply of `start_kernel` is determined by the outcome of the
creation syscall alone: two invocations whose syscalls have the same
outcome return identical strings, whatever the rest of the state is. -/
theorem start_kernel_deterministic (os₁ os₂ : OS)
    (h : os₁.oracle os₁.calls = os₂.oracle os₂.calls) :
    (start_kernel os₁).1 = (start_kernel os₂).1 := by
  cases h2 : os₂.oracle os₂.calls with
  | none =>
      rw [start_kernel_eq_of_ok os₂ h2, start_kernel_eq_of_ok os₁ (h.trans h2)]
  | some e =>
      rw [start_kernel_eq_of_err os₂ e h2,
        start_kernel_eq_of_err os₁ e (h.trans h2)]

/-- Witness for C10: the concrete states `osOk` and `osOk2` differ in pid
counter, call counter, process list and trace, yet their replies agree. -/
theorem start_kernel_deterministic_witness :
    osOk.oracle osOk.calls = osOk2.oracle osOk2.calls ∧
    (start_kernel osOk).1 = (start_kernel osOk2).1 :=
  ⟨rfl, start_kernel_deterministic osOk osOk2 rfl⟩
